import Mathlib

/-!
A shallow embedding of `lib/ansible/cli/pull.py` (the `PullCLI` class of
ansible-pull): option reconciliation (`PullCLI.parse`), the execution
orchestrator (`PullCLI.run`), and playbook selection
(`PullCLI.select_playbook` / `PullCLI.try_playbook`).

External collaborators (the filesystem, `random.randint`, `parse_kv`,
`os.path.expanduser`/`expandvars`, `socket.getfqdn`, `module_loader.find_plugin`
and the two subprocess invocations) are passed in as explicit parameters, so
every function here is a pure function of its inputs.
-/

namespace PullCLI

/-- Generic argument map (`self.scm_args`): a Python dict from string keys to
string values, modelled as an association list with unique keys. -/
abbrev KV := List (String × String)

/-- Dict lookup: first binding for the key. -/
def kvGet? (m : KV) (k : String) : Option String :=
  match m with
  | [] => none
  | (k2, v) :: rest => if k2 = k then some v else kvGet? rest k

/-- Membership, `k in d` for a Python dict. -/
def kvContains (m : KV) (k : String) : Bool :=
  (kvGet? m k).isSome

/-- Assignment, `d[k] = v` for a Python dict: update in place if present, else append. -/
def kvSet (m : KV) (k v : String) : KV :=
  match m with
  | [] => [(k, v)]
  | (k2, v2) :: rest => if k2 = k then (k, v) :: rest else (k2, v2) :: kvSet rest k v

/-- Deletion, `del d[k]` for a Python dict (removes every binding for the key; with
unique keys this is the single entry). -/
def kvErase (m : KV) (k : String) : KV :=
  match m with
  | [] => []
  | (k2, v2) :: rest => if k2 = k then kvErase rest k else (k2, v2) :: kvErase rest k

/-- Python truthiness of an optional string (`if self.options.foo:` where the
field defaults to `None`): `None` and the empty string are falsy. -/
def optTruthy (o : Option String) : Bool :=
  match o with
  | none => false
  | some s => s ≠ ""

/-- Python `s.startswith(pre)`, computed on the character list. -/
def strStartsWith (s pre : String) : Bool := pre.data.isPrefixOf s.data

/-- Python `s.endswith(suf)`, computed on the character list. -/
def strEndsWith (s suf : String) : Bool := suf.data.isSuffixOf s.data

/-- Embeds `os.path.join` on POSIX, restricted to the two-argument form used by the
source: an absolute second component replaces the first. -/
def path_join (a b : String) : String :=
  if strStartsWith b "/" then b
  else if a = "" then b
  else if strEndsWith a "/" then a ++ b
  else a ++ "/" ++ b

/-- The ASCII whitespace stripped by Python `int()`. -/
def pyIsSpace (c : Char) : Bool :=
  c = ' ' || c = '\t' || c = '\n' || c = '\x0b' || c = '\x0c' || c = '\r'

/-- Python `str.strip()` of the whitespace around a numeric literal. -/
def pyStrip (l : List Char) : List Char :=
  ((l.dropWhile pyIsSpace).reverse.dropWhile pyIsSpace).reverse

/-- Decimal digit run to a number; `none` if empty or any non-digit occurs. -/
def digitsToNat? (l : List Char) : Option Nat :=
  if l = [] then none
  else l.foldl (fun acc c =>
    match acc with
    | none => none
    | some n => if c.isDigit then some (n * 10 + (c.toNat - 48)) else none) (some 0)

/-- Python `int(s)` on a string: optional surrounding whitespace, an optional
sign, then decimal digits; `none` when `int` would raise `ValueError`.
(PEP-515 underscore grouping is not modelled.) -/
def pyInt? (s : String) : Option Int :=
  let t := pyStrip s.data
  let (neg, ds) :=
    match t with
    | '-' :: rest => (true, rest)
    | '+' :: rest => (false, rest)
    | _ => (false, t)
  match digitsToNat? ds with
  | some n => some (if neg then -(n : Int) else (n : Int))
  | none => none

/-- Substring test, `needle in hay` on Python bytes/str. -/
def strContains (hay needle : String) : Bool :=
  (List.range (hay.data.length + 1)).any (fun i => needle.data.isPrefixOf (hay.data.drop i))

/-- Python `s.split('.')[0]`: the portion before the first dot (the whole string when
no dot occurs; the empty string stays empty, as in Python). -/
def splitDotHead (s : String) : String :=
  String.mk (s.data.takeWhile (fun c => c ≠ '.'))

/-- Constant `PullCLI.DEFAULT_REPO_TYPE`. -/
def DEFAULT_REPO_TYPE : String := "git"

/-- Constant `PullCLI.DEFAULT_PLAYBOOK`. -/
def DEFAULT_PLAYBOOK : String := "local.yml"

/-- Constant `PullCLI.REPO_CHOICES`. -/
def REPO_CHOICES : List String := ["git", "subversion", "hg", "bzr"]

/-- Constant `PullCLI.SUPPORTED_REPO_MODULES`. -/
def SUPPORTED_REPO_MODULES : List String := ["git"]

/-- Constant `PullCLI.PLAYBOOK_ERRORS`, a dict from the `try_playbook` return code to a
failure reason. -/
def PLAYBOOK_ERRORS (rc : Nat) : String :=
  if rc = 1 then "File does not exist"
  else if rc = 2 then "File is not readable"
  else ""

/-- The command-line options consumed by `PullCLI` (the fields of
`self.options` that `parse`/`run` read), as produced by the option parser:
optional string-valued flags default to `None`, boolean flags to `False`. -/
structure Options where
  dest : Option String := none
  sleep : Option String := none
  url : Option String := none
  module_args : Option String := none
  module_name : String := DEFAULT_REPO_TYPE
  fullclone : Bool := false
  checkout : Option String := none
  accept_host_key : Bool := false
  clean : Bool := false
  tracksubs : Bool := false
  verify : Bool := false
  force : Bool := false
  ifchanged : Bool := false
  purge : Bool := false
  private_key_file : Option String := none
  deriving Repr, DecidableEq

/-- The filesystem facts the source consults: `os.path.exists`,
`os.path.isdir`, `os.access(path, os.R_OK)`. -/
structure FS where
  exists_ : String → Bool
  isdir : String → Bool
  readable : String → Bool

/-- The state `PullCLI.parse` leaves behind on success: the resolved
destination directory, the resolved sleep seconds (`self.options.sleep` after
being overwritten with an int), the generic argument map `self.scm_args`, and
the remaining options unchanged. -/
structure ParsedState where
  dest : String
  sleepSecs : Option Int
  scm_args : KV
  opts : Options
  deriving Repr

/-- Destination resolution (pull.py lines 141-145): default to
`~/.ansible/pull/<fqdn>` when unset, then `expandvars`/`expanduser` (modelled
by the external `expand`). -/
def resolve_dest (fqdn : String) (expand : String → String) (opts : Options) : String :=
  expand (if optTruthy opts.dest then opts.dest.getD "" else path_join "~/.ansible/pull" fqdn)

/-- Sleep handling (pull.py lines 150-155): skipped when the flag is falsy;
otherwise `random.randint(0, int(sleep))` under a `try` whose `except
ValueError` raises `AnsibleOptionsError("%s is not a number.")`. Both a
non-integer string (from `int`) and a negative bound (from `randint`, whose
range `[0, n]` is then empty) raise `ValueError` and hence the same error. -/
def parseSleep (rnd : Int → Int → Int) : Option String → Except String (Option Int)
  | none => .ok none
  | some s =>
    if s = "" then .ok none
    else
      match pyInt? s with
      | none => .error (s ++ " is not a number.")
      | some n =>
        if n < 0 then .error (s ++ " is not a number.")
        else .ok (some (rnd 0 n))

/-- Error message of pull.py line 169. -/
def destArgMsg : String :=
  "--module-args " ++ "\x27dest=<repo destination>\x27" ++
    " cannot be used, please use -d or --directory instead"

/-- Error message of pull.py line 173. -/
def nameArgMsg : String :=
  "--module-args " ++ "\x27name=<repo URL>\x27" ++
    " cannot be used, please use -U or --url instead"

/-- Error message of pull.py line 177. -/
def repoArgMsg : String :=
  "--module-args " ++ "\x27repo=<repo URL>\x27" ++
    " cannot be used, please use -U or --url instead"

/-- Error message of pull.py line 166. -/
def unsupportedModuleMsg (m : String) : String :=
  "Unsupported repo module " ++ m ++ ", choices are " ++
    String.intercalate "," SUPPORTED_REPO_MODULES

/-- Initialization of `self.scm_args` (pull.py lines 160-163): `parse_kv` of the
generic module arguments when truthy, else the empty dict. The external
splitter `parse_kv` is the parameter `pkv`. -/
def parse_scm_args (pkv : String → KV) (module_args : Option String) : KV :=
  match module_args with
  | none => []
  | some ma => if ma = "" then [] else pkv ma

/-- Embeds `PullCLI.parse` (pull.py lines 141-180), after the option-parser
boilerplate: destination resolution and validation, sleep resolution, URL
requirement, `parse_kv` of the generic module arguments (the external splitter
is the parameter `pkv`), the supported-module check, and the reserved-key
conflict checks. `rnd` stands for `random.randint`. -/
def parse (fqdn : String) (expand : String → String) (fs : FS)
    (rnd : Int → Int → Int) (pkv : String → KV) (opts : Options) :
    Except String ParsedState :=
  let dest := resolve_dest fqdn expand opts
  if fs.exists_ dest && !(fs.isdir dest) then
    .error (dest ++ " is not a valid or accessible directory.")
  else
    match parseSleep rnd opts.sleep with
    | .error e => .error e
    | .ok sleepSecs =>
      if !(optTruthy opts.url) then
        .error "URL for repository not specified, use -h for help"
      else
        let scm_args : KV := parse_scm_args pkv opts.module_args
        if !(SUPPORTED_REPO_MODULES.contains opts.module_name) then
          .error (unsupportedModuleMsg opts.module_name)
        else if kvContains scm_args "dest" then
          .error destArgMsg
        else if (["bzr", "git"].contains opts.module_name) &&
            (match kvGet? scm_args "name" with
             | some y => y != opts.url.getD ""
             | none => false) then
          .error nameArgMsg
        else if (["hg", "subversion"].contains opts.module_name) &&
            (match kvGet? scm_args "repo" with
             | some y => y != opts.url.getD ""
             | none => false) then
          .error repoArgMsg
        else
          .ok { dest := dest, sleepSecs := sleepSecs, scm_args := scm_args, opts := opts }

/-- Embeds `PullCLI.try_playbook` (pull.py lines 360-365): 1 when the path does not
exist, 2 when it exists but is not readable, 0 otherwise. -/
def try_playbook (fs : FS) (path : String) : Nat :=
  if !(fs.exists_ path) then 1
  else if !(fs.readable path) then 2
  else 0

/-- The candidate loop of `PullCLI.select_playbook` (pull.py lines 382-388):
first accepted candidate, plus the failure reason of each candidate tried and
rejected before (or instead of) it. -/
def select_loop (fs : FS) : List String → Option String × List String
  | [] => (none, [])
  | pb :: rest =>
    let rc := try_playbook fs pb
    if rc = 0 then (some pb, [])
    else
      let r := select_loop fs rest
      (r.1, (pb ++ ": " ++ PLAYBOOK_ERRORS rc) :: r.2)

/-- Embeds `PullCLI.select_playbook` (pull.py lines 367-391). Returns the selected
playbook (or `none`) together with the warnings emitted via
`display.warning`. `args` is `self.args`, the positional command-line
arguments; `fqdn` is `socket.getfqdn()`. -/
def select_playbook (fs : FS) (fqdn : String) (args : List String) (path : String) :
    Option String × List String :=
  match args with
  | a :: _ =>
    let playbook := path_join path a
    let rc := try_playbook fs playbook
    if rc ≠ 0 then
      (none, [playbook ++ ": " ++ PLAYBOOK_ERRORS rc])
    else
      (some playbook, [])
  | [] =>
    let hostpb := path_join path (fqdn ++ ".yml")
    let shorthostpb := path_join path (splitDotHead fqdn ++ ".yml")
    let localpb := path_join path DEFAULT_PLAYBOOK
    let r := select_loop fs [hostpb, shorthostpb, localpb]
    match r.1 with
    | none => (none, [String.intercalate "\n" r.2])
    | some pb => (some pb, [])

/-- Error message of pull.py line 208. -/
def unsupportedScmMsg (m : String) : String :=
  "Unsupported (" ++ m ++ ") SCM module for pull, choices are: " ++
    String.intercalate "," REPO_CHOICES

/-- Deprecation-override warning of pull.py line 226. -/
def checkoutOverrideWarn (k : String) : String :=
  "--module-args " ++ "\x27" ++ k ++ "\x27" ++
    " argument was provided but is being overridden by deprecated -C or --checkout for backward compatibility"

/-- Deprecation-override warning of pull.py lines 236/250/256/262 (the
overriding flag text differs per call site; `flagText` carries it). -/
def overrideWarn (k flagText : String) : String :=
  "--module-args " ++ "\x27" ++ k ++ "\x27" ++
    " argument was provided but is being overridden by " ++ flagText ++
    " for backward compatibility"

/-- Removal warning of pull.py lines 244/270. -/
def removedByFullWarn (k : String) : String :=
  "--module-args " ++ "\x27" ++ k ++ "\x27" ++
    " argument was provided but is being removed by --full for backward compatibility"

/-- The SCM-argument reconciliation pass of `PullCLI.run` (pull.py lines
207-272): the supported-SCM gate, the reserved-key assignments, the legacy
`--checkout`/`--clean` mappings, and the git/subversion module-specific
defaulting. Returns the final map and the warnings emitted, in order. -/
def reconcile_scm_args (opts : Options) (dest : String) (scm0 : KV) :
    Except String (KV × List String) :=
  if !(REPO_CHOICES.contains opts.module_name) then
    .error (unsupportedScmMsg opts.module_name)
  else
    let url := opts.url.getD ""
    let m := kvSet scm0 "dest" dest
    let m := if ["bzr", "git"].contains opts.module_name then kvSet m "name" url else m
    let m := if ["hg", "subversion"].contains opts.module_name then kvSet m "repo" url else m
    let checkout_key :=
      if ["bzr", "git"].contains opts.module_name then "version" else "revision"
    let ckCond := optTruthy opts.checkout &&
      (["bzr", "git", "hg", "subversion"].contains opts.module_name)
    let ws : List String :=
      if ckCond && kvContains m checkout_key then [checkoutOverrideWarn checkout_key] else []
    let m := if ckCond then kvSet m checkout_key (opts.checkout.getD "") else m
    let m := if opts.clean then kvSet m "force" "yes" else m
    if opts.module_name = "git" then
      let ws := ws ++ (if opts.accept_host_key && kvContains m "accept_hostkey" then
        [overrideWarn "accept_hostkey" "deprecated --accept-host-key"] else [])
      let m := if opts.accept_host_key then kvSet m "accept_hostkey" "yes" else m
      let ws := ws ++ (if opts.fullclone && kvContains m "depth" then
        [removedByFullWarn "depth"] else [])
      let m :=
        if !opts.fullclone && !(kvContains m "depth") then kvSet m "depth" "1"
        else if opts.fullclone && kvContains m "depth" then kvErase m "depth"
        else m
      let ws := ws ++ (if optTruthy opts.private_key_file && kvContains m "key_file" then
        [overrideWarn "key_file" "--key-file or --private-key"] else [])
      let m := if optTruthy opts.private_key_file then
        kvSet m "key_file" (opts.private_key_file.getD "") else m
      let ws := ws ++ (if opts.tracksubs && kvContains m "track_submodules" then
        [overrideWarn "track_submodules" "deprecated --track-subs"] else [])
      let m := if opts.tracksubs then kvSet m "track_submodules" "yes" else m
      let ws := ws ++ (if opts.verify && kvContains m "verify_commit" then
        [overrideWarn "verify_commit" "deprecated --verify-commit"] else [])
      let m := if opts.verify then kvSet m "verify_commit" "yes" else m
      .ok (m, ws)
    else if opts.module_name = "subversion" then
      let ws := ws ++ (if opts.fullclone && kvContains m "export" then
        [removedByFullWarn "export"] else [])
      let m :=
        if !opts.fullclone && !(kvContains m "export") then kvSet m "export" "yes"
        else if opts.fullclone && kvContains m "export" then kvErase m "export"
        else m
      .ok (m, ws)
    else
      .ok (m, ws)

/-- The outcomes of the external collaborators `PullCLI.run` consults: the
checkout subprocess result (`run_cmd` at pull.py line 298), the
playbook-execution subprocess result (`run_cmd` at line 349), and whether
`shutil.rmtree` raises (with the exception's text). -/
structure Subproc where
  checkoutRc : Int
  checkoutOut : String
  playbookRc : Int
  rmtreeFails : Bool := false
  rmtreeErr : String := ""

/-- Everything observable about one `PullCLI.run`: the returned exit code,
whether the playbook-execution subprocess was invoked, the final generic
argument map handed to the checkout command, the warnings and errors emitted,
whether `shutil.rmtree` of the destination was attempted, and the final
working directory (`none` = never changed). -/
structure RunResult where
  rc : Int
  ranPlaybook : Bool
  scm_args : KV
  warnings : List String
  errors : List String
  purged : Bool
  cwd : Option String
  deriving Repr

/-- The changed-state marker searched for in the checkout output
(pull.py line 305). -/
def changedMarker : String := "\"changed\": true"

/-- Embeds `PullCLI.run` (pull.py lines 182-358), modulo the purely cosmetic
command-string assembly and the actual blocking sleep: SCM-argument
reconciliation, the `find_plugin` existence check, the checkout subprocess and
the force / only-if-changed policy on its result, playbook selection, the
playbook subprocess, and the optional purge whose failure is logged but does
not change the exit code. -/
def run (fs : FS) (fqdn : String) (findPlugin : String → Option String)
    (sp : Subproc) (args : List String) (st : ParsedState) :
    Except String RunResult :=
  let opts := st.opts
  match reconcile_scm_args opts st.dest st.scm_args with
  | .error e => .error e
  | .ok (scm, ws) =>
    if (findPlugin opts.module_name).isNone then
      .error ("module " ++ "\x27" ++ opts.module_name ++ "\x27" ++ " not found.\n")
    else
      let contPlaybook : List String → Except String RunResult := fun ws =>
        let sel := select_playbook fs fqdn args st.dest
        let ws := ws ++ sel.2
        match sel.1 with
        | none => .error "Could not find a playbook to run."
        | some _pb =>
          let rc2 := sp.playbookRc
          if opts.purge then
            .ok { rc := rc2, ranPlaybook := true, scm_args := scm, warnings := ws,
                  errors := if sp.rmtreeFails then
                    ["Failed to remove " ++ st.dest ++ ": " ++ sp.rmtreeErr] else [],
                  purged := true, cwd := some "/" }
          else
            .ok { rc := rc2, ranPlaybook := true, scm_args := scm, warnings := ws,
                  errors := [], purged := false, cwd := some st.dest }
      if sp.checkoutRc ≠ 0 then
        if opts.force then
          contPlaybook
            (ws ++ ["Unable to update repository. Continuing with (forced) run of playbook."])
        else
          .ok { rc := sp.checkoutRc, ranPlaybook := false, scm_args := scm,
                warnings := ws, errors := [], purged := false, cwd := none }
      else if opts.ifchanged && !(strContains sp.checkoutOut changedMarker) then
        .ok { rc := 0, ranPlaybook := false, scm_args := scm,
              warnings := ws, errors := [], purged := false, cwd := none }
      else
        contPlaybook ws

/-! Concrete fixtures used to instantiate the theorems below on closed
inputs. -/

/-- A filesystem with no files. -/
def fsNone : FS :=
  { exists_ := fun _ => false, isdir := fun _ => false, readable := fun _ => false }

/-- A filesystem on which exactly the given paths exist and are readable
(and nothing is a directory). -/
def fsOnly (paths : List String) : FS :=
  { exists_ := fun p => paths.contains p, isdir := fun _ => false,
    readable := fun p => paths.contains p }

/-- Fixture: a `random.randint` stand-in returning the lower bound: it satisfies
`a ≤ rndLo a b ∧ rndLo a b ≤ b` whenever `a ≤ b`. -/
def rndLo : Int → Int → Int := fun a _ => a

/-- Fixture: a `parse_kv` stand-in returning the empty map. -/
def pkv0 : String → KV := fun _ => []

/-- Fixture: a `module_loader.find_plugin` stand-in that finds every module. -/
def fp0 : String → Option String := fun _ => some "/plugins/modules"

/-- A post-`parse` state for the git module at destination `/dest` with the
given force / only-if-changed / purge flags. -/
def stGit (f ic pg : Bool) : ParsedState :=
  { dest := "/dest", sleepSecs := none, scm_args := [],
    opts := { url := some "u", module_name := "git",
              force := f, ifchanged := ic, purge := pg } }

/-! Dictionary lemmas for the generic argument map. -/

theorem kvGet?_kvSet (m : KV) (k v k' : String) :
    kvGet? (kvSet m k v) k' = if k = k' then some v else kvGet? m k' := by
  induction m with
  | nil => simp [kvSet, kvGet?]
  | cons hd tl ih =>
    obtain ⟨k2, v2⟩ := hd
    simp only [kvSet]
    split_ifs with h1 <;> simp_all [kvGet?]

theorem kvGet?_kvErase (m : KV) (k k' : String) :
    kvGet? (kvErase m k) k' = if k = k' then none else kvGet? m k' := by
  induction m with
  | nil => simp [kvErase, kvGet?]
  | cons hd tl ih =>
    obtain ⟨k2, v2⟩ := hd
    simp only [kvErase]
    split_ifs with h1 <;> simp_all [kvGet?]

theorem kvContains_kvSet (m : KV) (k v k' : String) :
    kvContains (kvSet m k v) k' = (k = k' || kvContains m k') := by
  simp [kvContains, kvGet?_kvSet]
  split_ifs <;> simp_all

theorem kvContains_kvErase (m : KV) (k k' : String) :
    kvContains (kvErase m k) k' = (!(k = k') && kvContains m k') := by
  simp [kvContains, kvGet?_kvErase]
  split_ifs <;> simp_all

theorem kvGet?_ite_kvSet_ne (P : Prop) [Decidable P] (m : KV) (k v k' : String)
    (h : ¬(k = k')) :
    kvGet? (if P then kvSet m k v else m) k' = kvGet? m k' := by
  split_ifs <;> simp [kvGet?_kvSet, h]

theorem kvContains_ite_kvSet_ne (P : Prop) [Decidable P] (m : KV) (k v k' : String)
    (h : ¬(k = k')) :
    kvContains (if P then kvSet m k v else m) k' = kvContains m k' := by
  split_ifs <;> simp [kvContains_kvSet, h]

/-! Claim C1. -/

/-- C1, as stated, is false: the claim says option reconciliation accepts every
module name in the enumeration git, subversion, mercurial (hg), bazaar (bzr),
but `SUPPORTED_REPO_MODULES` is `['git']`, so `parse` rejects `subversion`
while accepting `git` under the same otherwise-valid options. -/
theorem C1_counterexample :
    parse "host" id fsNone rndLo pkv0
        { url := some "git://r", module_name := "subversion" } =
      .error (unsupportedModuleMsg "subversion") ∧
    ∃ st, parse "host" id fsNone rndLo pkv0
        { url := some "git://r", module_name := "git" } = .ok st :=
  ⟨rfl, ⟨_, rfl⟩⟩

/-- C1 (amended): option reconciliation accepts the module name exactly when it
lies in `SUPPORTED_REPO_MODULES = ['git']`; every module name other than git
(including subversion, hg and bzr) fails with a configuration error listing
the supported set. -/
theorem C1_amended_accepts_only_git (fqdn : String) (expand : String → String)
    (fs : FS) (rnd : Int → Int → Int) (pkv : String → KV) (opts : Options)
    (hdest : (fs.exists_ (resolve_dest fqdn expand opts) &&
      !(fs.isdir (resolve_dest fqdn expand opts))) = false)
    (hsleep : opts.sleep = none)
    (hurl : optTruthy opts.url = true) :
    (opts.module_name ≠ "git" →
      parse fqdn expand fs rnd pkv opts =
        .error (unsupportedModuleMsg opts.module_name)) ∧
    (opts.module_name = "git" →
      kvContains (parse_scm_args pkv opts.module_args) "dest" = false →
      kvGet? (parse_scm_args pkv opts.module_args) "name" = none →
      parse fqdn expand fs rnd pkv opts =
        .ok { dest := resolve_dest fqdn expand opts, sleepSecs := none,
              scm_args := parse_scm_args pkv opts.module_args, opts := opts }) := by
  constructor
  · intro hmod
    simp [parse, hdest, hsleep, parseSleep, hurl, SUPPORTED_REPO_MODULES, hmod]
  · intro hmod hdestArg hname
    have hdestArg2 : kvGet? (parse_scm_args pkv opts.module_args) "dest" = none := by
      cases h : kvGet? (parse_scm_args pkv opts.module_args) "dest" with
      | none => rfl
      | some v => simp [kvContains, h] at hdestArg
    simp [parse, hdest, hsleep, parseSleep, hurl, SUPPORTED_REPO_MODULES, hmod,
      hdestArg2, hname, kvContains]

/-- Witness for C1 (amended): `hg` is rejected with the error listing the
supported set, and `git` is accepted, at concrete inputs. -/
theorem C1_witness :
    (parse "host" id fsNone rndLo pkv0 { url := some "u", module_name := "hg" } =
      .error (unsupportedModuleMsg "hg")) ∧
    (parse "host" id fsNone rndLo pkv0 { url := some "u" } =
      .ok { dest := resolve_dest "host" id { url := some "u" }, sleepSecs := none,
            scm_args := [], opts := { url := some "u" } }) := by
  constructor
  · exact (C1_amended_accepts_only_git "host" id fsNone rndLo pkv0
      { url := some "u", module_name := "hg" } rfl rfl rfl).1 (by decide)
  · exact (C1_amended_accepts_only_git "host" id fsNone rndLo pkv0
      { url := some "u" } rfl rfl rfl).2 rfl rfl rfl

/-! Claim C5. -/

/-- C5: a generic-argument-map entry for the reserved key `dest` makes
reconciliation fail regardless of its value; for module git, an entry
`name=Y` fails exactly when `Y` differs from the `--url` value and succeeds
when it matches; the two cases produce distinct error messages. -/
theorem C5_reserved_key_conflicts (fqdn : String) (expand : String → String)
    (fs : FS) (rnd : Int → Int → Int) (pkv : String → KV) (opts : Options)
    (hdest : (fs.exists_ (resolve_dest fqdn expand opts) &&
      !(fs.isdir (resolve_dest fqdn expand opts))) = false)
    (hsleep : opts.sleep = none)
    (hurl : optTruthy opts.url = true)
    (hmod : opts.module_name = "git") :
    (∀ v, kvGet? (parse_scm_args pkv opts.module_args) "dest" = some v →
      parse fqdn expand fs rnd pkv opts = .error destArgMsg) ∧
    (kvGet? (parse_scm_args pkv opts.module_args) "dest" = none →
      ∀ y, kvGet? (parse_scm_args pkv opts.module_args) "name" = some y →
        (y ≠ opts.url.getD "" →
          parse fqdn expand fs rnd pkv opts = .error nameArgMsg) ∧
        (y = opts.url.getD "" →
          parse fqdn expand fs rnd pkv opts =
            .ok { dest := resolve_dest fqdn expand opts, sleepSecs := none,
                  scm_args := parse_scm_args pkv opts.module_args, opts := opts })) ∧
    destArgMsg ≠ nameArgMsg := by
  refine ⟨?_, ?_, by decide⟩
  · intro v hv
    simp [parse, hdest, hsleep, parseSleep, hurl, SUPPORTED_REPO_MODULES, hmod,
      kvContains, hv]
  · intro hdestNone y hy
    constructor
    · intro hne
      simp [parse, hdest, hsleep, parseSleep, hurl, SUPPORTED_REPO_MODULES, hmod,
        kvContains, hdestNone, hy, hne]
    · intro heq
      simp [parse, hdest, hsleep, parseSleep, hurl, SUPPORTED_REPO_MODULES, hmod,
        kvContains, hdestNone, hy, heq]

/-- Witness for C5: at concrete inputs, a `dest=x` entry fails with the
dest-specific message; `name=w` against `--url u` fails with the
name-specific message; `name=u` against `--url u` succeeds. -/
theorem C5_witness :
    (parse "host" id fsNone rndLo (fun _ => [("dest", "x")])
        { url := some "u", module_args := some "dest=x" } = .error destArgMsg) ∧
    (parse "host" id fsNone rndLo (fun _ => [("name", "w")])
        { url := some "u", module_args := some "name=w" } = .error nameArgMsg) ∧
    (parse "host" id fsNone rndLo (fun _ => [("name", "u")])
        { url := some "u", module_args := some "name=u" } =
      .ok { dest := resolve_dest "host" id { url := some "u", module_args := some "name=u" },
            sleepSecs := none, scm_args := [("name", "u")],
            opts := { url := some "u", module_args := some "name=u" } }) := by
  refine ⟨?_, ?_, ?_⟩
  · exact (C5_reserved_key_conflicts "host" id fsNone rndLo (fun _ => [("dest", "x")])
      { url := some "u", module_args := some "dest=x" } rfl rfl rfl rfl).1 "x" rfl
  · exact ((C5_reserved_key_conflicts "host" id fsNone rndLo (fun _ => [("name", "w")])
      { url := some "u", module_args := some "name=w" } rfl rfl rfl rfl).2.1
        rfl "w" rfl).1 (by decide)
  · exact ((C5_reserved_key_conflicts "host" id fsNone rndLo (fun _ => [("name", "u")])
      { url := some "u", module_args := some "name=u" } rfl rfl rfl rfl).2.1
        rfl "u" rfl).2 rfl

/-! Claim C7. -/

/-- C7, as stated, is false on one boundary input: the empty string is a
supplied sleep value that does not parse as an integer, yet reconciliation
succeeds, because `if self.options.sleep:` treats the falsy empty string as
"no sleep requested" and skips the numeric check entirely. -/
theorem C7_counterexample :
    pyInt? "" = none ∧
    parse "host" id fsNone rndLo pkv0 { url := some "u", sleep := some "" } =
      .ok { dest := resolve_dest "host" id { url := some "u", sleep := some "" },
            sleepSecs := none, scm_args := [],
            opts := { url := some "u", sleep := some "" } } :=
  ⟨rfl, rfl⟩

/-- C7 (amended): for every supplied non-empty sleep value that does not parse
as an integer, reconciliation fails with a configuration error; for every
supplied integer N ≥ 0, the resolved sleep value is an integer in [0, N]
(the empty string is treated as if no sleep had been supplied). `hr` is the
`random.randint` contract. -/
theorem C7_amended_sleep (fqdn : String) (expand : String → String) (fs : FS)
    (rnd : Int → Int → Int) (pkv : String → KV) (opts : Options) (s : String)
    (hdest : (fs.exists_ (resolve_dest fqdn expand opts) &&
      !(fs.isdir (resolve_dest fqdn expand opts))) = false)
    (hs : opts.sleep = some s) (hne : s ≠ "")
    (hr : ∀ a b : Int, a ≤ b → a ≤ rnd a b ∧ rnd a b ≤ b) :
    (pyInt? s = none →
      parse fqdn expand fs rnd pkv opts = .error (s ++ " is not a number.")) ∧
    (∀ n : Int, pyInt? s = some n → 0 ≤ n →
      ∀ st, parse fqdn expand fs rnd pkv opts = .ok st →
        ∃ k, st.sleepSecs = some k ∧ 0 ≤ k ∧ k ≤ n) := by
  constructor
  · intro hpy
    simp [parse, hdest, hs, parseSleep, hne, hpy]
  · intro n hpy hn st hst
    have hnlt : ¬(n < 0) := not_lt.mpr hn
    simp only [parse, hdest, hs, parseSleep, hne, hpy, hnlt] at hst
    simp only [Bool.false_eq_true, if_false, if_neg hnlt] at hst
    split_ifs at hst <;> simp_all
    refine ⟨rnd 0 n, ?_, (hr 0 n hn).1, (hr 0 n hn).2⟩
    rw [← hst]

/-- Witness for C7 (amended): `abc` is rejected as not a number, and sleep `5`
resolves to an integer in [0, 5], at concrete inputs. -/
theorem C7_witness :
    (parse "host" id fsNone rndLo pkv0 { url := some "u", sleep := some "abc" } =
      .error ("abc" ++ " is not a number.")) ∧
    ∃ k, (ParsedState.sleepSecs
        { dest := resolve_dest "host" id { url := some "u", sleep := some "5" },
          sleepSecs := some 0, scm_args := [],
          opts := { url := some "u", sleep := some "5" } }) = some k ∧
      0 ≤ k ∧ k ≤ 5 := by
  constructor
  · exact (C7_amended_sleep "host" id fsNone rndLo pkv0
      { url := some "u", sleep := some "abc" } "abc" rfl rfl (by decide)
      (fun a b h => ⟨le_refl a, h⟩)).1 rfl
  · exact (C7_amended_sleep "host" id fsNone rndLo pkv0
      { url := some "u", sleep := some "5" } "5" rfl rfl (by decide)
      (fun a b h => ⟨le_refl a, h⟩)).2 5 rfl (by decide) _ rfl

/-! Claim C10. -/

/-- C10: a supplied sleep value parsing as a negative integer also fails
reconciliation (`random.randint(0, N)` on the empty range raises the same
`ValueError` the non-numeric case does), and the error message is the same
`%s is not a number.` one produced for non-numeric input. -/
theorem C10_negative_sleep (fqdn : String) (expand : String → String) (fs : FS)
    (rnd : Int → Int → Int) (pkv : String → KV) (opts : Options) (s : String)
    (hdest : (fs.exists_ (resolve_dest fqdn expand opts) &&
      !(fs.isdir (resolve_dest fqdn expand opts))) = false)
    (hs : opts.sleep = some s) :
    (∀ n : Int, pyInt? s = some n → n < 0 →
      parse fqdn expand fs rnd pkv opts = .error (s ++ " is not a number.")) ∧
    (s ≠ "" → pyInt? s = none →
      parse fqdn expand fs rnd pkv opts = .error (s ++ " is not a number.")) := by
  constructor
  · intro n hpy hn
    have hne : s ≠ "" := by
      intro h
      rw [h, show pyInt? "" = none from by decide] at hpy
      exact Option.noConfusion hpy
    simp [parse, hdest, hs, parseSleep, hne, hpy, hn]
  · intro hne hpy
    simp [parse, hdest, hs, parseSleep, hne, hpy]

/-- Witness for C10: sleep `-5` fails with the same message shape as the
non-numeric sleep `abc`, at concrete inputs. -/
theorem C10_witness :
    (parse "host" id fsNone rndLo pkv0 { url := some "u", sleep := some "-5" } =
      .error ("-5" ++ " is not a number.")) ∧
    (parse "host" id fsNone rndLo pkv0 { url := some "u", sleep := some "abc" } =
      .error ("abc" ++ " is not a number.")) := by
  constructor
  · exact (C10_negative_sleep "host" id fsNone rndLo pkv0
      { url := some "u", sleep := some "-5" } "-5" rfl rfl).1 (-5) rfl (by decide)
  · exact (C10_negative_sleep "host" id fsNone rndLo pkv0
      { url := some "u", sleep := some "abc" } "abc" rfl rfl).2 (by decide) rfl

/-- For the git module the SCM reconciliation pass of `run` never raises: the
`Unsupported SCM module` branch requires a module name outside `REPO_CHOICES`
and git is in `REPO_CHOICES`. -/
theorem reconcile_git_ok (opts : Options) (dest : String) (scm0 : KV)
    (h : opts.module_name = "git") :
    ∃ p, reconcile_scm_args opts dest scm0 = .ok p := by
  simp [reconcile_scm_args, h, REPO_CHOICES]

theorem kvContains_stepErase_ne (P Q : Prop) [Decidable P] [Decidable Q]
    (m : KV) (dk v k' : String) (h : ¬(dk = k')) :
    kvContains (if P then kvSet m dk v else if Q then kvErase m dk else m) k' =
      kvContains m k' := by
  split_ifs <;> simp [kvContains_kvSet, kvContains_kvErase, h]

theorem kvGet?_stepErase_ne (P Q : Prop) [Decidable P] [Decidable Q]
    (m : KV) (dk v k' : String) (h : ¬(dk = k')) :
    kvGet? (if P then kvSet m dk v else if Q then kvErase m dk else m) k' =
      kvGet? m k' := by
  split_ifs <;> simp [kvGet?_kvSet, kvGet?_kvErase, h]

/-- Inversion of a successful `parse`: the options pass through unchanged, the
module name passed the supported check (hence is git), the generic argument
map is the `parse_kv` result, and the destination is the resolved one. -/
theorem parse_ok_inv (fqdn : String) (expand : String → String) (fs : FS)
    (rnd : Int → Int → Int) (pkv : String → KV) (opts : Options) (st : ParsedState)
    (h : parse fqdn expand fs rnd pkv opts = .ok st) :
    st.opts = opts ∧ opts.module_name = "git" ∧
    st.scm_args = parse_scm_args pkv opts.module_args ∧
    st.dest = resolve_dest fqdn expand opts := by
  simp only [parse] at h
  split at h
  · exact Except.noConfusion h
  · split at h
    · exact Except.noConfusion h
    · split_ifs at h with h1 h2 h3 h4 h5
      have hgit : opts.module_name = "git" := by
        simpa [SUPPORTED_REPO_MODULES] using h2
      injection h with h6
      subst h6
      exact ⟨rfl, hgit, rfl, rfl⟩

/-! Claim C3. -/

/-- C3: with no explicit playbook argument, selection tries exactly
`<dest>/<fqdn>.yml`, then `<dest>/<short-hostname>.yml`, then
`<dest>/local.yml`, in that order, returning the first that exists and is
readable with no warning; if all three fail it emits one warning joining every
per-candidate failure reason with newlines and returns no playbook, which
`run` turns into the `Could not find a playbook to run.` configuration
error. -/
theorem C3_fallback_selection (fs : FS) (fqdn dest : String) :
    (try_playbook fs (path_join dest (fqdn ++ ".yml")) = 0 →
      select_playbook fs fqdn [] dest = (some (path_join dest (fqdn ++ ".yml")), [])) ∧
    (try_playbook fs (path_join dest (fqdn ++ ".yml")) ≠ 0 →
      try_playbook fs (path_join dest (splitDotHead fqdn ++ ".yml")) = 0 →
      select_playbook fs fqdn [] dest =
        (some (path_join dest (splitDotHead fqdn ++ ".yml")), [])) ∧
    (try_playbook fs (path_join dest (fqdn ++ ".yml")) ≠ 0 →
      try_playbook fs (path_join dest (splitDotHead fqdn ++ ".yml")) ≠ 0 →
      try_playbook fs (path_join dest DEFAULT_PLAYBOOK) = 0 →
      select_playbook fs fqdn [] dest = (some (path_join dest DEFAULT_PLAYBOOK), [])) ∧
    (try_playbook fs (path_join dest (fqdn ++ ".yml")) ≠ 0 →
      try_playbook fs (path_join dest (splitDotHead fqdn ++ ".yml")) ≠ 0 →
      try_playbook fs (path_join dest DEFAULT_PLAYBOOK) ≠ 0 →
      select_playbook fs fqdn [] dest =
        (none, [String.intercalate "\n"
          [path_join dest (fqdn ++ ".yml") ++ ": " ++
             PLAYBOOK_ERRORS (try_playbook fs (path_join dest (fqdn ++ ".yml"))),
           path_join dest (splitDotHead fqdn ++ ".yml") ++ ": " ++
             PLAYBOOK_ERRORS (try_playbook fs (path_join dest (splitDotHead fqdn ++ ".yml"))),
           path_join dest DEFAULT_PLAYBOOK ++ ": " ++
             PLAYBOOK_ERRORS (try_playbook fs (path_join dest DEFAULT_PLAYBOOK))]])) ∧
    (∀ findPlugin sp (st : ParsedState), st.dest = dest →
      st.opts.module_name = "git" → (findPlugin "git").isSome = true →
      sp.checkoutRc = 0 → st.opts.ifchanged = false →
      (select_playbook fs fqdn [] dest).1 = none →
      run fs fqdn findPlugin sp [] st = .error "Could not find a playbook to run.") := by
  refine ⟨?_, ?_, ?_, ?_, ?_⟩
  · intro h1
    simp [select_playbook, select_loop, h1]
  · intro h1 h2
    simp [select_playbook, select_loop, h1, h2]
  · intro h1 h2 h3
    simp [select_playbook, select_loop, h1, h2, h3]
  · intro h1 h2 h3
    simp [select_playbook, select_loop, h1, h2, h3]
  · intro findPlugin sp st hdest hgit hfp hrc hifc hsel
    obtain ⟨p, hp⟩ := reconcile_git_ok st.opts st.dest st.scm_args hgit
    obtain ⟨v, hv⟩ := Option.isSome_iff_exists.mp hfp
    subst hdest
    simp [run, hp, hgit, hv, hrc, hifc, hsel]

/-- Witness for C3: with only `/dest/local.yml` on the filesystem and fqdn
`h.example.com`, selection returns `<dest>/local.yml`. -/
theorem C3_witness :
    select_playbook (fsOnly ["/dest/local.yml"]) "h.example.com" [] "/dest" =
      (some (path_join "/dest" DEFAULT_PLAYBOOK), []) :=
  (C3_fallback_selection (fsOnly ["/dest/local.yml"]) "h.example.com" "/dest").2.2.1
    (by decide) (by decide) (by decide)

/-! Claim C6. -/

/-- C6: with an explicit positional playbook argument, selection joins it to
the checkout directory and tests existence then readability: on success it
returns the joined path with no warning; on failure it warns with the path and
the reason for exactly the failed check and returns no playbook, never
consulting the fqdn/short-hostname/local.yml fallback candidates. -/
theorem C6_explicit_playbook (fs : FS) (fqdn dest a : String) (rest : List String) :
    (fs.exists_ (path_join dest a) = true → fs.readable (path_join dest a) = true →
      select_playbook fs fqdn (a :: rest) dest = (some (path_join dest a), [])) ∧
    (fs.exists_ (path_join dest a) = false →
      select_playbook fs fqdn (a :: rest) dest =
        (none, [path_join dest a ++ ": " ++ "File does not exist"])) ∧
    (fs.exists_ (path_join dest a) = true → fs.readable (path_join dest a) = false →
      select_playbook fs fqdn (a :: rest) dest =
        (none, [path_join dest a ++ ": " ++ "File is not readable"])) := by
  refine ⟨?_, ?_, ?_⟩
  · intro h1 h2
    simp [select_playbook, try_playbook, h1, h2]
  · intro h1
    simp [select_playbook, try_playbook, h1, PLAYBOOK_ERRORS]
  · intro h1 h2
    simp [select_playbook, try_playbook, h1, h2, PLAYBOOK_ERRORS]

/-- Witness for C6: `foo.yml` present and readable is selected as
`/dest/foo.yml`; absent, selection returns none with the
`File does not exist` warning. -/
theorem C6_witness :
    (select_playbook (fsOnly ["/dest/foo.yml"]) "h" ["foo.yml"] "/dest" =
      (some (path_join "/dest" "foo.yml"), [])) ∧
    (select_playbook fsNone "h" ["foo.yml"] "/dest" =
      (none, [path_join "/dest" "foo.yml" ++ ": " ++ "File does not exist"])) := by
  constructor
  · exact (C6_explicit_playbook (fsOnly ["/dest/foo.yml"]) "h" "/dest" "foo.yml" []).1
      (by decide) (by decide)
  · exact (C6_explicit_playbook fsNone "h" "/dest" "foo.yml" []).2.1 rfl

/-! Claim C4. -/

/-- C4: for the git module, when full-clone is not requested and the incoming
generic argument map has no `depth` key, reconciliation adds `depth=1`; when
full-clone is requested and a `depth` key is present, it removes the entry and
warns; in the remaining two cases the depth entry is left unchanged. -/
theorem C4_git_depth_defaulting (opts : Options) (dest : String) (scm0 : KV)
    (p : KV × List String)
    (hgit : opts.module_name = "git")
    (hp : reconcile_scm_args opts dest scm0 = .ok p) :
    (opts.fullclone = false → kvContains scm0 "depth" = false →
      kvGet? p.1 "depth" = some "1") ∧
    (opts.fullclone = true → kvContains scm0 "depth" = true →
      kvContains p.1 "depth" = false ∧ removedByFullWarn "depth" ∈ p.2) ∧
    (opts.fullclone = false → kvContains scm0 "depth" = true →
      kvGet? p.1 "depth" = kvGet? scm0 "depth") ∧
    (opts.fullclone = true → kvContains scm0 "depth" = false →
      kvContains p.1 "depth" = false) := by
  simp [reconcile_scm_args, hgit, REPO_CHOICES] at hp
  subst hp
  refine ⟨?_, ?_, ?_, ?_⟩
  · intro hfull hdep
    simp [hfull, hdep, kvGet?_ite_kvSet_ne, kvContains_ite_kvSet_ne,
      kvGet?_kvSet, kvContains_kvSet]
  · intro hfull hdep
    constructor
    · simp [hfull, hdep, kvContains_ite_kvSet_ne, kvContains_kvSet,
        kvContains_kvErase]
    · simp [hfull, hdep, kvContains_ite_kvSet_ne, kvContains_kvSet]
  · intro hfull hdep
    simp [hfull, hdep, kvGet?_ite_kvSet_ne, kvContains_ite_kvSet_ne,
      kvGet?_kvSet, kvContains_kvSet]
  · intro hfull hdep
    have hdep2 : (kvGet? scm0 "depth").isSome = false := by
      simpa [kvContains] using hdep
    simp [hfull, hdep, hdep2, kvGet?_ite_kvSet_ne, kvContains_ite_kvSet_ne,
      kvGet?_kvSet, kvContains_kvSet, kvContains]

/-- Witness for C4: concretely, with no depth entry and no full-clone the
final map carries `depth=1`; with full-clone and an incoming `depth=5` the
entry is gone and the removal warning was emitted. -/
theorem C4_witness :
    (kvGet? ([("dest", "/dest"), ("name", "u"), ("depth", "1")] : KV) "depth" =
      some "1") ∧
    (kvContains ([("dest", "/dest"), ("name", "u")] : KV) "depth" = false ∧
      removedByFullWarn "depth" ∈ [removedByFullWarn "depth"]) := by
  constructor
  · exact (C4_git_depth_defaulting { url := some "u" } "/dest" []
      ([("dest", "/dest"), ("name", "u"), ("depth", "1")], []) rfl rfl).1 rfl rfl
  · exact (C4_git_depth_defaulting { url := some "u", fullclone := true } "/dest"
      [("depth", "5")]
      ([("dest", "/dest"), ("name", "u")], [removedByFullWarn "depth"]) rfl rfl).2.1
      rfl rfl

/-! Claim C9. -/

/-- C9: whenever option reconciliation succeeds the module name is git;
consequently the `Unsupported (%s) SCM module for pull` branch of `run` is
unreachable (reconciliation of the SCM arguments always succeeds), and the
subversion/hg/bzr-specific branches never fire: no `repo` identity key, no
`revision` checkout key and no `export` entry is ever introduced. -/
theorem C9_git_only (fqdn : String) (expand : String → String) (fs : FS)
    (rnd : Int → Int → Int) (pkv : String → KV) (opts : Options)
    (st : ParsedState) (dest : String) (scm0 : KV)
    (hparse : parse fqdn expand fs rnd pkv opts = .ok st) :
    st.opts.module_name = "git" ∧
    (∃ p, reconcile_scm_args st.opts dest scm0 = .ok p ∧
      (kvContains scm0 "repo" = false → kvContains p.1 "repo" = false) ∧
      (kvContains scm0 "revision" = false → kvContains p.1 "revision" = false) ∧
      (kvContains scm0 "export" = false → kvContains p.1 "export" = false)) := by
  obtain ⟨hopts, hgit, -, -⟩ := parse_ok_inv fqdn expand fs rnd pkv opts st hparse
  have hmod : st.opts.module_name = "git" := by rw [hopts, hgit]
  refine ⟨hmod, ?_⟩
  simp only [reconcile_scm_args, hmod]
  simp [REPO_CHOICES]
  refine ⟨?_, ?_, ?_⟩
  · intro hrepo
    simp [kvContains_stepErase_ne, kvContains_ite_kvSet_ne, kvContains_kvSet, hrepo]
  · intro hrev
    simp [kvContains_stepErase_ne, kvContains_ite_kvSet_ne, kvContains_kvSet, hrev]
  · intro hexp
    simp [kvContains_stepErase_ne, kvContains_ite_kvSet_ne, kvContains_kvSet, hexp]

/-- Witness for C9: a concrete successful `parse` has module git, and its SCM
reconciliation adds none of `repo`, `revision`, `export`. -/
theorem C9_witness :
    Options.module_name
      (ParsedState.opts
        { dest := resolve_dest "host" id ({ url := some "u" } : Options),
          sleepSecs := none, scm_args := [],
          opts := { url := some "u" } }) = "git" ∧
    (∃ p, reconcile_scm_args
        (ParsedState.opts
          { dest := resolve_dest "host" id ({ url := some "u" } : Options),
            sleepSecs := none, scm_args := [],
            opts := { url := some "u" } }) "/dest" [] = .ok p ∧
      (kvContains [] "repo" = false → kvContains p.1 "repo" = false) ∧
      (kvContains [] "revision" = false → kvContains p.1 "revision" = false) ∧
      (kvContains [] "export" = false → kvContains p.1 "export" = false)) :=
  C9_git_only "host" id fsNone rndLo pkv0 { url := some "u" }
    { dest := resolve_dest "host" id ({ url := some "u" } : Options),
      sleepSecs := none, scm_args := [], opts := { url := some "u" } }
    "/dest" [] rfl

/-! Claim C2. -/

/-- C2: if the checkout subprocess exits non-zero then with force unset `run`
returns that same exit code without invoking the playbook subprocess, and with
force set it proceeds (with a warning) to playbook selection and execution;
if the checkout exits zero, only-if-changed is set and the captured output
lacks the `"changed": true` marker, `run` returns 0 without invoking the
playbook subprocess. -/
theorem C2_checkout_policy (fs : FS) (fqdn : String)
    (findPlugin : String → Option String) (sp : Subproc) (args : List String)
    (st : ParsedState)
    (hgit : st.opts.module_name = "git")
    (hfp : (findPlugin "git").isSome = true) :
    (sp.checkoutRc ≠ 0 → st.opts.force = false →
      ∃ r, run fs fqdn findPlugin sp args st = .ok r ∧
        r.rc = sp.checkoutRc ∧ r.ranPlaybook = false) ∧
    (sp.checkoutRc ≠ 0 → st.opts.force = true →
      ∀ pb, (select_playbook fs fqdn args st.dest).1 = some pb →
      ∃ r, run fs fqdn findPlugin sp args st = .ok r ∧ r.ranPlaybook = true ∧
        r.rc = sp.playbookRc ∧
        "Unable to update repository. Continuing with (forced) run of playbook."
          ∈ r.warnings) ∧
    (sp.checkoutRc = 0 → st.opts.ifchanged = true →
      strContains sp.checkoutOut changedMarker = false →
      ∃ r, run fs fqdn findPlugin sp args st = .ok r ∧
        r.rc = 0 ∧ r.ranPlaybook = false) := by
  obtain ⟨⟨scm, ws⟩, hp⟩ := reconcile_git_ok st.opts st.dest st.scm_args hgit
  obtain ⟨v, hv⟩ := Option.isSome_iff_exists.mp hfp
  have hv2 : findPlugin st.opts.module_name = some v := by rw [hgit, hv]
  refine ⟨?_, ?_, ?_⟩
  · intro hrc hforce
    refine ⟨{ rc := sp.checkoutRc, ranPlaybook := false, scm_args := scm,
              warnings := ws, errors := [], purged := false, cwd := none },
            ?_, rfl, rfl⟩
    simp [run, hp, hv2, hrc, hforce]
  · intro hrc hforce pb hpb
    cases hpurge : st.opts.purge with
    | false =>
      refine ⟨{ rc := sp.playbookRc, ranPlaybook := true, scm_args := scm,
                warnings := (ws ++
                  ["Unable to update repository. Continuing with (forced) run of playbook."]) ++
                  (select_playbook fs fqdn args st.dest).2,
                errors := [], purged := false, cwd := some st.dest },
              ?_, rfl, rfl, ?_⟩
      · simp [run, hp, hv2, hrc, hforce, hpb, hpurge]
      · simp
    | true =>
      refine ⟨{ rc := sp.playbookRc, ranPlaybook := true, scm_args := scm,
                warnings := (ws ++
                  ["Unable to update repository. Continuing with (forced) run of playbook."]) ++
                  (select_playbook fs fqdn args st.dest).2,
                errors := if sp.rmtreeFails then
                  ["Failed to remove " ++ st.dest ++ ": " ++ sp.rmtreeErr] else [],
                purged := true, cwd := some "/" },
              ?_, rfl, rfl, ?_⟩
      · simp [run, hp, hv2, hrc, hforce, hpb, hpurge]
      · simp
  · intro hrc hifc hout
    refine ⟨{ rc := 0, ranPlaybook := false, scm_args := scm,
              warnings := ws, errors := [], purged := false, cwd := none },
            ?_, rfl, rfl⟩
    simp [run, hp, hv2, hrc, hifc, hout]

/-- Witness for C2: concretely, checkout exit 3 without force yields exit 3
and no playbook invocation; with force it runs the playbook; exit 0 with
only-if-changed and an output lacking the marker yields exit 0 and no
playbook invocation. -/
theorem C2_witness :
    (∃ r, run (fsOnly ["/dest/local.yml"]) "h" fp0
        { checkoutRc := 3, checkoutOut := "", playbookRc := 7 } [] (stGit false false false) =
        .ok r ∧ r.rc = 3 ∧ r.ranPlaybook = false) ∧
    (∃ r, run (fsOnly ["/dest/local.yml"]) "h" fp0
        { checkoutRc := 3, checkoutOut := "", playbookRc := 7 } [] (stGit true false false) =
        .ok r ∧ r.ranPlaybook = true ∧ r.rc = 7 ∧
        "Unable to update repository. Continuing with (forced) run of playbook."
          ∈ r.warnings) ∧
    (∃ r, run (fsOnly ["/dest/local.yml"]) "h" fp0
        { checkoutRc := 0, checkoutOut := "nothing happened", playbookRc := 7 } []
        (stGit false true false) =
        .ok r ∧ r.rc = 0 ∧ r.ranPlaybook = false) := by
  refine ⟨?_, ?_, ?_⟩
  · exact (C2_checkout_policy (fsOnly ["/dest/local.yml"]) "h" fp0
      { checkoutRc := 3, checkoutOut := "", playbookRc := 7 } [] (stGit false false false)
      rfl rfl).1 (by decide) rfl
  · exact (C2_checkout_policy (fsOnly ["/dest/local.yml"]) "h" fp0
      { checkoutRc := 3, checkoutOut := "", playbookRc := 7 } [] (stGit true false false)
      rfl rfl).2.1 (by decide) rfl "/dest/local.yml" (by decide)
  · exact (C2_checkout_policy (fsOnly ["/dest/local.yml"]) "h" fp0
      { checkoutRc := 0, checkoutOut := "nothing happened", playbookRc := 7 } []
      (stGit false true false) rfl rfl).2.2 rfl rfl (by decide)

/-! Claim C8. -/

/-- C8: with purge requested, after the playbook subprocess returns, `run`
changes the working directory to `/` (away from the destination) and attempts
the recursive deletion of the destination; a deletion failure is logged as an
error while `run` still returns the playbook subprocess's exit code
unchanged. -/
theorem C8_purge (fs : FS) (fqdn : String) (findPlugin : String → Option String)
    (sp : Subproc) (args : List String) (st : ParsedState) (pb : String)
    (hgit : st.opts.module_name = "git")
    (hfp : (findPlugin "git").isSome = true)
    (hpurge : st.opts.purge = true)
    (hrc : sp.checkoutRc = 0) (hifc : st.opts.ifchanged = false)
    (hpb : (select_playbook fs fqdn args st.dest).1 = some pb) :
    ∃ r, run fs fqdn findPlugin sp args st = .ok r ∧
      r.rc = sp.playbookRc ∧ r.purged = true ∧ r.cwd = some "/" ∧
      (sp.rmtreeFails = true →
        r.errors = ["Failed to remove " ++ st.dest ++ ": " ++ sp.rmtreeErr]) ∧
      (sp.rmtreeFails = false → r.errors = []) := by
  obtain ⟨⟨scm, ws⟩, hp⟩ := reconcile_git_ok st.opts st.dest st.scm_args hgit
  obtain ⟨v, hv⟩ := Option.isSome_iff_exists.mp hfp
  have hv2 : findPlugin st.opts.module_name = some v := by rw [hgit, hv]
  refine ⟨{ rc := sp.playbookRc, ranPlaybook := true, scm_args := scm,
            warnings := ws ++ (select_playbook fs fqdn args st.dest).2,
            errors := if sp.rmtreeFails then
              ["Failed to remove " ++ st.dest ++ ": " ++ sp.rmtreeErr] else [],
            purged := true, cwd := some "/" },
          ?_, rfl, rfl, rfl, ?_, ?_⟩
  · simp [run, hp, hv2, hrc, hifc, hpb, hpurge]
  · intro h
    simp [h]
  · intro h
    simp [h]

/-- Witness for C8: concretely, with purge set and a failing deletion, `run`
still returns the playbook exit code 7, changed directory to `/`, attempted
the purge, and logged the deletion failure. -/
theorem C8_witness :
    ∃ r, run (fsOnly ["/dest/local.yml"]) "h" fp0
        { checkoutRc := 0, checkoutOut := "", playbookRc := 7,
          rmtreeFails := true, rmtreeErr := "Permission denied" } []
        (stGit false false true) =
      .ok r ∧ r.rc = 7 ∧ r.purged = true ∧ r.cwd = some "/" ∧
      (true = true → r.errors = ["Failed to remove " ++ "/dest" ++ ": " ++ "Permission denied"]) ∧
      (true = false → r.errors = []) := by
  have h := C8_purge (fsOnly ["/dest/local.yml"]) "h" fp0
    { checkoutRc := 0, checkoutOut := "", playbookRc := 7,
      rmtreeFails := true, rmtreeErr := "Permission denied" } []
    (stGit false false true) "/dest/local.yml" rfl rfl rfl rfl rfl (by decide)
  exact h

end PullCLI
